import Mathlib

/-!
# Verification of the `config_utils` log-aggregation pipeline

Shallow embedding of the multi-process log-aggregation subsystem of the
`config_utils` repository, together with theorems settling the spec claims
about it.  Each definition is translated from a named Python function or
method in the source tree; the source location is given in the doc comment.

Modelling conventions:
* Python floats used only for wall-clock arithmetic are modelled as `Rat`.
* Python exceptions are modelled by the `PyExc` inductive; fallible code
  returns `Except PyExc _`.
* Log records and formatted records are type parameters (`α`, `σ`): the
  embedded code never inspects their contents, only moves them around.
-/

namespace ConfigUtils

/-- Python exception values that the embedded code can raise. -/
inductive PyExc
  | attributeError (attr : String)
  | typeError (msg : String)
  | valueError (msg : String)
  deriving DecidableEq, Repr

/-!
## `src/logging.py` — `BatchableLogHandler`

The batching sink base class.  Mutable handler state is the record of the
attributes set in `BatchableLogHandler.__init__` (src/logging.py lines
73-85); `emit` and `flush` are state-passing translations of the methods at
lines 96-105 and 107-114.
-/

/-- Attribute state of a `BatchableLogHandler` (src/logging.py lines 79-85).
`α` is the type of log records, `σ` the type of formatted records stored in
`self._buffer`.  `self._last_emitted` is `None` until the first delivery, so
it is an `Option Rat`. -/
structure BatchableState (α σ : Type) where
  buffer : List σ
  bufferSize : Int
  bufferTimeout : Rat
  lastRecord : Option α
  lastEmitted : Option Rat
  deriving Repr

/-- `BatchableLogHandler.__init__` (src/logging.py lines 73-85) with the
constructor's default arguments `buffer_size=-1`, `buffer_timeout=-1`:
empty buffer, no last record, `_last_emitted = None`. -/
def batchableInit (α σ : Type) (bufferSize : Int := -1) (bufferTimeout : Rat := -1) :
    BatchableState α σ :=
  { buffer := []
    bufferSize := bufferSize
    bufferTimeout := bufferTimeout
    lastRecord := none
    lastEmitted := none }

/-- `BatchableLogHandler.emit` (src/logging.py lines 96-105).

Under the buffer lock it records the last record and appends
`self.format(record)` (modelled by `fmt`); it then evaluates
`len(self._buffer) > self._buffer_size and time.time() - self._last_emitted
>= self._buffer_timeout`.  Python's `and` short-circuits, so the time
difference is evaluated only when the length test succeeds; evaluating
`time.time() - None` raises `TypeError`.  The returned `Bool` records
whether `self.flush()` was invoked (the flush body itself is modelled
separately by `flushBatchable`). -/
def emit {α σ : Type} (st : BatchableState α σ) (fmt : α → σ) (record : α)
    (now : Rat) : Except PyExc (BatchableState α σ × Bool) :=
  let buf := st.buffer ++ [fmt record]
  let st' := { st with lastRecord := some record, buffer := buf }
  if (buf.length : Int) > st.bufferSize then
    match st.lastEmitted with
    | none =>
        .error (.typeError "unsupported operand type(s) for -: 'float' and 'NoneType'")
    | some t =>
        if now - t ≥ st.bufferTimeout then .ok (st', true) else .ok (st', false)
  else .ok (st', false)

/-- Outcome of one `BatchableLogHandler.flush` call. `removed` lists the
records this flush removed from the buffer (removal happens only in
`self.clear()`); `handleErrorCalled` records whether `self.handleError` ran. -/
structure BatchFlushResult (σ : Type) where
  removed : List σ
  handleErrorCalled : Bool
  finalBuffer : List σ
  deriving Repr, DecidableEq

/-- `BatchableLogHandler.flush` (src/logging.py lines 107-114).

`if self._buffer:` guards the whole body.  Inside the lock it attempts
`self.emit_many(self._buffer)` (delivery success is the oracle `deliverOk`)
and only then `self.clear()`; on any exception it calls
`self.handleError(self._last_record)` and leaves the buffer untouched. -/
def flushBatchable {α σ : Type} (st : BatchableState α σ) (deliverOk : Bool) :
    BatchFlushResult σ :=
  if st.buffer.isEmpty then
    { removed := [], handleErrorCalled := false, finalBuffer := st.buffer }
  else if deliverOk then
    { removed := st.buffer, handleErrorCalled := false, finalBuffer := [] }
  else
    { removed := [], handleErrorCalled := true, finalBuffer := st.buffer }

/-!
## `src/config_utils/logging/handlers.py` — `BufferingSMTPHandler`

`flush` (lines 123-136) opens one SMTP connection, then loops
`while self.buffer:` popping a record (`self.buffer.pop()` removes the
*last* element of a Python list) and calling `smtp.sendmail` on it; a
failed send re-raises only when `logging.raiseExceptions` is true,
otherwise the `except` clause falls through and the loop continues with
the record already removed.
-/

/-- Observable outcome of one `BufferingSMTPHandler.flush` call.
`sent` is the list of records delivered by `smtp.sendmail`, in send order;
`lostSilently` collects records that were popped from the buffer and whose
send raised while `logging.raiseExceptions` was false (the `except` clause
swallows the exception); `raised` is the record whose send failure
propagated out of `flush`; `finalBuffer` is `self.buffer` afterwards. -/
structure SmtpFlushResult (α : Type) where
  sent : List α
  lostSilently : List α
  raised : Option α
  finalBuffer : List α
  deriving Repr, DecidableEq

/-- The `while self.buffer:` loop of `BufferingSMTPHandler.flush`
(src/config_utils/logging/handlers.py lines 126-136).  Each iteration pops
the last element of `buf` (`record = self.buffer.pop()`), attempts the send
(oracle `sendOk`), and on failure either re-raises (when
`logging.raiseExceptions`, here `raiseExc`, is true) or silently moves on. -/
def smtpFlushLoop {α : Type} (sendOk : α → Bool) (raiseExc : Bool) :
    List α → SmtpFlushResult α → SmtpFlushResult α
  | buf, out =>
    match hb : buf.getLast? with
    | none => out
    | some r =>
      if sendOk r then
        smtpFlushLoop sendOk raiseExc buf.dropLast
          { out with sent := out.sent ++ [r] }
      else if raiseExc then
        { out with raised := some r, finalBuffer := buf.dropLast }
      else
        smtpFlushLoop sendOk raiseExc buf.dropLast
          { out with lostSilently := out.lostSilently ++ [r] }
termination_by buf _ => buf.length
decreasing_by
  all_goals
    have hne : buf ≠ [] := by
      intro h
      rw [h] at hb
      simp at hb
    have hpos : 0 < buf.length := List.length_pos.mpr hne
    simp [List.length_dropLast]
    omega

/-- `BufferingSMTPHandler.flush` (src/config_utils/logging/handlers.py lines
123-136): `if self.buffer:` guard, then the pop-and-send loop under one SMTP
connection. -/
def smtpFlush {α : Type} (sendOk : α → Bool) (raiseExc : Bool)
    (buffer : List α) : SmtpFlushResult α :=
  if buffer.isEmpty then
    { sent := [], lostSilently := [], raised := none, finalBuffer := buffer }
  else
    smtpFlushLoop sendOk raiseExc buffer
      { sent := [], lostSilently := [], raised := none, finalBuffer := [] }

/-!
## `src/config_utils/logging/formatters.py` — `EmailFormatter`
and the recipient computation of `BufferingSMTPHandler`.
-/

/-- The `record.email` mapping read by `EmailFormatter.format`
(src/config_utils/logging/formatters.py lines 77-85): each key is optional;
a missing key falls back to the formatter's defaults (`msg_data.get(key,
self.defaults[key])`).  A record with no `email` attribute behaves as the
empty mapping (`getattr(record, "email", {})`). -/
structure EmailData where
  fromAddr : Option String := none
  subject : Option String := none
  toAddrs : Option (List String) := none
  ccAddrs : Option (List String) := none
  attachment : Option (Option String) := none
  deriving Repr

/-- The `self.defaults` dict built in `EmailFormatter.__init__`
(src/config_utils/logging/formatters.py lines 68-74). -/
structure EmailDefaults where
  subject : String
  fromAddr : String
  toAddrs : List String
  ccAddrs : List String
  attachment : Option String
  deriving Repr

/-- The message headers assigned by `EmailFormatter.format`
(src/config_utils/logging/formatters.py lines 76-97), in assignment order:
`From`, `Subject`, `To` (`", ".join(...)`), `Cc` (`", ".join(...)`).  The
source comment "Don't include BCC addresses in the message (that's the
whole point)" is reflected by the absence of any BCC header; no other
message header is set. -/
def emailFormatHeaders (defaults : EmailDefaults) (msgData : EmailData) :
    List (String × String) :=
  [ ("From", msgData.fromAddr.getD defaults.fromAddr)
  , ("Subject", msgData.subject.getD defaults.subject)
  , ("To", String.intercalate ", " (msgData.toAddrs.getD defaults.toAddrs))
  , ("Cc", String.intercalate ", " (msgData.ccAddrs.getD defaults.ccAddrs)) ]

/-- The address-bearing attribute state of a `BufferingSMTPHandler`
(src/config_utils/logging/handlers.py lines 74-78) together with the
formatter defaults installed by its constructor (lines 89-101):
`EmailFormatter(..., defaultFromAddr=fromAddr, defaultToAddrs=toAddrs,
defaultSubject=subject, defaultCCAddrs=ccAddrs,
defaultAttachment=attachment)`. -/
structure SmtpHandlerState where
  fromAddr : String
  toAddrs : List String
  ccAddrs : List String
  bccAddrs : List String
  formatterDefaults : EmailDefaults
  deriving Repr

/-- The address handling of `BufferingSMTPHandler.__init__`
(src/config_utils/logging/handlers.py lines 49-101). -/
def smtpHandlerInit (toAddrs ccAddrs bccAddrs : List String)
    (subject fromAddr : String) (attachment : Option String) :
    SmtpHandlerState :=
  { fromAddr := fromAddr
    toAddrs := toAddrs
    ccAddrs := ccAddrs
    bccAddrs := bccAddrs
    formatterDefaults :=
      { subject := subject
        fromAddr := fromAddr
        toAddrs := toAddrs
        ccAddrs := ccAddrs
        attachment := attachment } }

/-- The recipient list assembled by `BufferingSMTPHandler._get_recipients`
(src/config_utils/logging/handlers.py lines 115-121):
`[*getattr(record, "toAddrs", self.toAddrs), *getattr(record, "ccAddrs",
self.ccAddrs), *getattr(record, "bccAddrs", self.bccAddrs)]`.  The record's
optional `toAddrs`/`ccAddrs`/`bccAddrs` attributes are the three `Option`
arguments. -/
def getRecipientsList (h : SmtpHandlerState)
    (recToAddrs recCcAddrs recBccAddrs : Option (List String)) : List String :=
  recToAddrs.getD h.toAddrs ++ recCcAddrs.getD h.ccAddrs ++ recBccAddrs.getD h.bccAddrs

/-- `BufferingSMTPHandler._get_recipients` returns
`",".join(recipients)` (src/config_utils/logging/handlers.py line 121). -/
def getRecipients (h : SmtpHandlerState)
    (recToAddrs recCcAddrs recBccAddrs : Option (List String)) : String :=
  String.intercalate "," (getRecipientsList h recToAddrs recCcAddrs recBccAddrs)

/-- `needle` occurs contiguously inside `hay` (substring on character
lists); used to state that an address appears nowhere in a header. -/
def charsStartWith : List Char → List Char → Bool
  | [], _ => true
  | _ :: _, [] => false
  | a :: as, b :: bs => a == b && charsStartWith as bs

/-- Substring occurrence test on strings, via character lists. -/
def occursIn (needle hay : String) : Bool :=
  go needle.toList hay.toList
where
  go (n : List Char) : List Char → Bool
    | [] => charsStartWith n []
    | b :: bs => charsStartWith n (b :: bs) || go n bs

/-!
## `src/config_utils/logging/server.py` — handler callback

`_handle_shared_log_message` (lines 23-41) is the callback the listener
dispatches each dequeued Envelope to.  The Envelope is modelled with the
two fields the callback reads, `record` and `config` (the field layout of
`SharedLogMessage` in src/src/log_utils.py lines 58-61 and the keyword
construction `SharedLogMessage(record=..., config=...)` used throughout).
-/

/-- A configuration directive as used by the callback: the callback reads
`msg.config.name` and `msg.config.to_dict()`; the payload of `to_dict()` is
not inspected further, so only the name is carried. -/
structure LoggerConfigMsg where
  name : String
  deriving Repr, DecidableEq

/-- A serialized log record as used by the callback: the callback reads
only `msg.record.name`. -/
structure LogRecordMsg where
  name : String
  deriving Repr, DecidableEq

/-- The Envelope: `SharedLogMessage` with fields `record` and `config`
(src/src/log_utils.py lines 58-61), at least conceptually both optional. -/
structure SharedLogMessage where
  record : Option LogRecordMsg
  config : Option LoggerConfigMsg
  deriving Repr, DecidableEq

/-- Observable actions of one handler-callback invocation. -/
inductive HandlerEvent
  /-- `logging_config.dictConfig({..., "loggers": {name: ...}})` attempted
  for the named logger (src/config_utils/logging/server.py lines 31-35). -/
  | dictConfig (name : String)
  /-- `logging.getLogger(__name__).exception("Could not apply logging
  config %s", ...)` — the fallback log of the `except` clause (lines 36-39). -/
  | fallbackLog (name : String)
  /-- `logging.getLogger(msg.record.name).handle(msg.record)` (line 41). -/
  | handleRecord (name : String)
  deriving Repr, DecidableEq

/-- `_handle_shared_log_message` (src/config_utils/logging/server.py lines
23-41), as the list of observable actions it performs plus the exception it
lets escape, if any.

If `msg.config is not None`, the dict-config application is attempted
inside `try/except Exception`: a failure (oracle `configApplyFails`) is
logged through the fallback logger and swallowed.  Then, independently, if
`msg.record is not None` the record is handled by its named logger; that
call sits outside any `try`, so a failure there (oracle
`recordHandleFails`) escapes. -/
def handleSharedLogMessage (configApplyFails recordHandleFails : Bool)
    (msg : SharedLogMessage) : List HandlerEvent × Option PyExc :=
  let configPart : List HandlerEvent :=
    match msg.config with
    | none => []
    | some c =>
      if configApplyFails then [.dictConfig c.name, .fallbackLog c.name]
      else [.dictConfig c.name]
  match msg.record with
  | none => (configPart, none)
  | some r =>
    if recordHandleFails then
      (configPart, some (.valueError "record handling failed"))
    else
      (configPart ++ [.handleRecord r.name], none)

/-- One worker thread of `QueueListener.listen`
(src/src/multiprocessing_utils.py lines 104-107): the thread target is
`self.handler` applied to the dequeued message alone
(`threading.Thread(target=self.handler, args=(msg,))`).  The listener's
`raise_on_exc` flag is consulted only in the `except` clauses around
`self.queue.get()` (lines 96-103); it is not passed to, nor read by, the
handler callback, which is why it appears here as an argument that the
outcome does not depend on. -/
def workerOutcome (raiseOnExc : Bool) (configApplyFails recordHandleFails : Bool)
    (msg : SharedLogMessage) : List HandlerEvent × Option PyExc :=
  handleSharedLogMessage configApplyFails recordHandleFails msg

/-- `handle_shared_log_message` (src/src/log_utils.py lines 64-69): the
plain variant without `try/except` — `dictConfig(msg.config)` then
`logging.getLogger(msg.record.name).handle(msg.record)`. A config failure
escapes here. -/
def logUtilsHandleSharedLogMessage (configApplyFails : Bool)
    (msg : SharedLogMessage) : List HandlerEvent × Option PyExc :=
  match msg.config with
  | some c =>
    if configApplyFails then
      ([.dictConfig c.name], some (.valueError "dictConfig failed"))
    else
      match msg.record with
      | none => ([.dictConfig c.name], none)
      | some r => ([.dictConfig c.name, .handleRecord r.name], none)
  | none =>
    match msg.record with
    | none => ([], none)
    | some r => ([.handleRecord r.name], none)

/-!
## `src/src/multiprocessing_utils.py` — `QueueListenerDaemon.__init__`

The constructor body (lines 144-170) is a straight-line sequence of
attribute assignments with no conditionals, so its control flow is
independent of the argument values.  We embed it as a list of statements,
each recording which `self.` attributes the statement's right-hand side
reads and which attribute it assigns, and run that list under Python's
semantics: reading a `self.` attribute that has not been assigned yet
raises `AttributeError` at that point.
-/

/-- One constructor statement: the `self.` attributes its right-hand side
reads (in evaluation order), and the attribute it assigns. -/
structure InitStmt where
  reads : List String
  assigns : String

/-- The statements of `QueueListenerDaemon.__init__`
(src/src/multiprocessing_utils.py lines 162-170), in order:

* `self._stop_event = ctx.Event()`
* `self._listener = QueueListener(queue, handler, self._stop_event, raise_on_exc)`
* `self._daemon = daemonize(self._listener.start, initializer=self.initializer)`
  — argument evaluation reads `self._listener` and then `self.initializer`
* `self.initializer = initializer`
* `self.raise_on_exc = raise_on_exc` -/
def qldInitStmts : List InitStmt :=
  [ ⟨[], "_stop_event"⟩
  , ⟨["_stop_event"], "_listener"⟩
  , ⟨["_listener", "initializer"], "_daemon"⟩
  , ⟨[], "initializer"⟩
  , ⟨[], "raise_on_exc"⟩ ]

/-- Run a sequence of constructor statements on the set of already-assigned
attributes: the first read of a not-yet-assigned attribute raises
`AttributeError` with that attribute's name (Python raises on the first
offending read, left to right). -/
def runInitStmts : List InitStmt → List String → Except PyExc (List String)
  | [], attrs => .ok attrs
  | stmt :: rest, attrs =>
    match stmt.reads.find? (fun a => !attrs.contains a) with
    | some a => .error (.attributeError a)
    | none => runInitStmts rest (attrs ++ [stmt.assigns])

/-- `QueueListenerDaemon.__init__` (src/src/multiprocessing_utils.py lines
144-170).  The constructor arguments are carried as type parameters to make
explicit that the straight-line body's outcome does not depend on them; the
result is the set of attributes a completed construction would have
assigned, or the exception that interrupted it. -/
def qldInit {Ctx Q H I : Type} (ctx : Ctx) (queue : Q) (handler : H)
    (initializer : I) (raiseOnExc : Bool) : Except PyExc (List String) :=
  runInitStmts qldInitStmts []

/-- Python parameter binding for `daemonize(ctx, worker, args,
initializer=None, name=None)` (src/src/multiprocessing_utils.py lines
19-25): a call binds `numPositional` leading parameters positionally plus
the listed keywords; it is accepted only if every parameter without a
default (`ctx`, `worker`, `args`) ends up bound. -/
def daemonizeCallBindsOk (numPositional : Nat) (keywords : List String) : Bool :=
  let params := ["ctx", "worker", "args", "initializer", "name"]
  let bound := params.take numPositional ++ keywords
  ["ctx", "worker", "args"].all (fun p => bound.contains p)

/-- Observable actions of `init_server`
(src/config_utils/logging/server.py lines 87-110). -/
inductive ServerEvent
  /-- `warnings.warn("Logging server has already been initialized")` -/
  | warnAlreadyInit
  /-- `__LOGGER_QUEUE = ctx.Queue(-1)` -/
  | createQueue
  /-- `daemon.start_listener()` -/
  | startListener
  deriving Repr, DecidableEq

/-- `init_server` (src/config_utils/logging/server.py lines 87-110): if the
module-level queue already exists, warn and return; otherwise create the
queue, construct the `QueueListenerDaemon` (whose constructor may raise —
an exception propagates out of `init_server`), and only on success call
`daemon.start_listener()`. -/
def initServer {Ctx Q H I : Type} (alreadyInitialized : Bool) (ctx : Ctx)
    (queue : Q) (handler : H) (initializer : I) :
    List ServerEvent × Option PyExc :=
  if alreadyInitialized then ([.warnAlreadyInit], none)
  else
    match qldInit ctx queue handler initializer true with
    | .error e => ([.createQueue], some e)
    | .ok _ => ([.createQueue, .startListener], none)

/-!
## `src/src/multiprocessing_utils.py` — `QueueListenerDaemon.stop_listener`
-/

/-- Observable actions of `stop_listener` / `_stop_daemon`. -/
inductive LifecycleEvent
  /-- `warnings.warn(..., QueueListenerDaemonWarning)` via `_warn` -/
  | warn
  /-- `self._stop_event.set()` -/
  | setStopEvent
  /-- `time.sleep(t)` -/
  | sleep (t : Rat)
  /-- `self._daemon.terminate()` (SIGTERM) -/
  | terminate
  /-- `self._daemon.kill()` (SIGKILL) -/
  | kill
  /-- `self._daemon.close()` (release OS resources) -/
  | close
  deriving Repr, DecidableEq

/-- `QueueListenerDaemon._stop_daemon` (src/src/multiprocessing_utils.py
lines 186-197): terminate, sleep the fixed `delay = 0.1` grace period, and
if the process is still alive (oracle `aliveAfterTerm`) warn and kill;
`close()` runs in the `finally` block. -/
def stopDaemon (aliveAfterTerm : Bool) : List LifecycleEvent :=
  [.terminate, .sleep (1/10)]
    ++ (if aliveAfterTerm then [.warn, .kill] else [])
    ++ [.close]

/-- `QueueListenerDaemon.stop_listener` (src/src/multiprocessing_utils.py
lines 199-220).

`if not self._daemon.is_alive(): self._error("Daemon is not running",
ValueError)` — `_error` (lines 138-142) raises when `self.raise_on_exc` is
true and otherwise issues a warning *and returns*, after which execution of
`stop_listener` continues.  Then the stop event is set, and depending on
`timeout`: `== 0` runs `_stop_daemon()` immediately; `> 0` sleeps
`timeout` seconds first; `< 0` does nothing further. -/
def stopListener (alive aliveAfterTerm raiseOnExc : Bool) (timeout : Rat) :
    Except PyExc (List LifecycleEvent) :=
  if !alive && raiseOnExc then
    .error (.valueError "Daemon is not running")
  else
    let warnPart : List LifecycleEvent := if !alive then [.warn] else []
    .ok (warnPart ++ [.setStopEvent]
      ++ (if timeout = 0 then stopDaemon aliveAfterTerm
          else if timeout > 0 then .sleep timeout :: stopDaemon aliveAfterTerm
          else []))

/-!
## `src/src/multiprocessing_utils.py` — `QueueListener.listen` / `start`

Small-step model of the listener process.  Two threads run inside it: the
daemonized `listen` thread (lines 91-108), whose dequeue loop is
`while True:` — the loop guard is the constant true and never consults the
stop event (the `_should_stop` helper at lines 88-89 is defined but called
nowhere) — and the coordination thread of `start` (lines 110-125), which
polls `self.stop_event` with `self.stop_event.wait(1)` and, once it is set,
falls through to `sys.exit(0)`, ending the process and with it every
daemonic thread.
-/

/-- The guard of the dequeue loop in `QueueListener.listen`
(src/src/multiprocessing_utils.py line 93): literally `while True:`.  It
does not read the state, and in particular not the stop event. -/
def listenGuard {St : Type} (s : St) : Bool := true

/-- State of the listener process:
* `stopSet` — the shared stop event;
* `atLoopHead` — the `listen` thread is at the top of its `while` loop,
  about to begin a dequeue iteration (a blocking `self.queue.get()`);
* `processAlive` — the coordination thread has not yet executed
  `sys.exit(0)`;
* `workers` — dispatched handler worker threads still running. -/
structure ListenState where
  stopSet : Bool
  atLoopHead : Bool
  processAlive : Bool
  workers : Nat
  deriving Repr, DecidableEq

/-- Thread-interleaving steps of the listener process. -/
inductive LStep
  /-- `stop_event.set()`, from any process holding a reference. -/
  | setStop
  /-- The `listen` thread begins a new dequeue iteration: it passes the
  `while True:` guard and enters `self.queue.get()` (lines 93-95). -/
  | beginGet
  /-- The `listen` thread returns from `get`, spawns a daemonic worker
  thread for the message (lines 104-107), and is back at the loop head. -/
  | dispatch
  /-- A worker thread finishes. -/
  | workerDone
  /-- The coordination thread in `start` observes `stop_event.is_set()`
  (lines 116-117), leaves its wait loop, and `sys.exit(0)` ends the process
  (lines 122-125). -/
  | coordExit

/-- One enabled step of the listener process; `none` when the step is not
enabled in `s`.  `beginGet` requires only a live process, the `listen`
thread at its loop head, and `listenGuard` — the constant-true `while`
guard; the stop event does not occur in its enabling condition, mirroring
the source. -/
def lstep (s : ListenState) : LStep → Option ListenState
  | .setStop => some { s with stopSet := true }
  | .beginGet =>
      if s.processAlive && s.atLoopHead && listenGuard s then
        some { s with atLoopHead := false }
      else none
  | .dispatch =>
      if s.processAlive && !s.atLoopHead then
        some { s with atLoopHead := true, workers := s.workers + 1 }
      else none
  | .workerDone =>
      if s.workers > 0 then some { s with workers := s.workers - 1 } else none
  | .coordExit =>
      if s.stopSet && s.processAlive then
        some { s with processAlive := false }
      else none

/-- Initial state of a freshly started listener process: stop event clear,
`listen` thread at its loop head, process alive, no workers. -/
def listenInit : ListenState :=
  { stopSet := false, atLoopHead := true, processAlive := true, workers := 0 }

/-!
## Theorems settling the claims
-/

/-- C2: For every combination of constructor arguments, constructing a
`QueueListenerDaemon` raises before the constructor returns: `__init__`
reads `self.initializer` (while evaluating the arguments of the `daemonize`
call) before that attribute is assigned, raising `AttributeError`; the
`daemonize` call site moreover binds only one positional argument plus the
keyword `initializer`, leaving the required parameters `worker` and `args`
unbound; consequently `init_server` propagates the constructor's exception
and never reaches `daemon.start_listener()`. -/
theorem c2_constructor_always_raises {Ctx Q H I : Type} (ctx : Ctx) (queue : Q)
    (handler : H) (initializer : I) (raiseOnExc : Bool) :
    qldInit ctx queue handler initializer raiseOnExc
      = .error (.attributeError "initializer")
    ∧ daemonizeCallBindsOk 1 ["initializer"] = false
    ∧ initServer false ctx queue handler initializer
        = ([.createQueue], some (.attributeError "initializer"))
    ∧ ServerEvent.startListener ∉ (initServer false ctx queue handler initializer).1 := by
  refine ⟨rfl, rfl, rfl, ?_⟩
  simp [initServer, qldInit, runInitStmts, qldInitStmts]

/-- C8: With `toAddrs=["a@x.com","b@x.com"]`, `ccAddrs=["c@x.com"]`,
`bccAddrs=["d@x.com"]`, a record carrying no email attributes formats to a
message whose `To` header is `"a@x.com, b@x.com"` and `Cc` header is
`"c@x.com"`, the string `"d@x.com"` occurs in no header name or value, and
the recipients computed by `_get_recipients` comprise all four addresses. -/
theorem c8_email_headers_and_recipients :
    emailFormatHeaders
        (smtpHandlerInit ["a@x.com", "b@x.com"] ["c@x.com"] ["d@x.com"]
          "subj" "from@x.com" none).formatterDefaults {}
      = [ ("From", "from@x.com"), ("Subject", "subj")
        , ("To", "a@x.com, b@x.com"), ("Cc", "c@x.com") ]
    ∧ ((emailFormatHeaders
        (smtpHandlerInit ["a@x.com", "b@x.com"] ["c@x.com"] ["d@x.com"]
          "subj" "from@x.com" none).formatterDefaults {}).all
        (fun p => !occursIn "d@x.com" p.1 && !occursIn "d@x.com" p.2)) = true
    ∧ getRecipientsList
        (smtpHandlerInit ["a@x.com", "b@x.com"] ["c@x.com"] ["d@x.com"]
          "subj" "from@x.com" none) none none none
      = ["a@x.com", "b@x.com", "c@x.com", "d@x.com"]
    ∧ getRecipients
        (smtpHandlerInit ["a@x.com", "b@x.com"] ["c@x.com"] ["d@x.com"]
          "subj" "from@x.com" none) none none none
      = "a@x.com,b@x.com,c@x.com,d@x.com" := by
  refine ⟨rfl, ?_, rfl, rfl⟩
  decide

/-- C9: A freshly constructed `BatchableLogHandler` has
`_last_emitted = None`, and with the default `buffer_size = -1` the size
condition `len(buffer) > buffer_size` already holds after the first append,
so the very first `emit()` evaluates `time.time() - None` and raises
`TypeError` instead of buffering the record and returning. -/
theorem c9_first_emit_raises_type_error {α σ : Type} (fmt : α → σ) (record : α)
    (now : Rat) :
    (batchableInit α σ).lastEmitted = none
    ∧ emit (batchableInit α σ) fmt record now
        = .error (.typeError
            "unsupported operand type(s) for -: 'float' and 'NoneType'") := by
  refine ⟨rfl, ?_⟩
  simp [emit, batchableInit]

/-- C5: When `_last_emitted` is set, `emit(record)` appends the formatted
record (and remembers it as the last record) and triggers `flush()` exactly
when both `len(buffer) > buffer_size` (post-append length) and
`now - last_emitted >= buffer_timeout` hold; and whenever the post-append
length stays at or below the size threshold, no implicit flush occurs
regardless of `_last_emitted` or elapsed time (Python's `and`
short-circuits, so the time test is then not even evaluated). -/
theorem c5_emit_flush_predicate {α σ : Type} (st : BatchableState α σ)
    (fmt : α → σ) (record : α) (now : Rat) :
    (∀ t, st.lastEmitted = some t →
      emit st fmt record now
        = .ok ({ st with buffer := st.buffer ++ [fmt record],
                         lastRecord := some record },
               decide ((st.buffer.length + 1 : Int) > st.bufferSize
                 ∧ now - t ≥ st.bufferTimeout)))
    ∧ ((st.buffer.length + 1 : Int) ≤ st.bufferSize →
      emit st fmt record now
        = .ok ({ st with buffer := st.buffer ++ [fmt record],
                         lastRecord := some record }, false)) := by
  constructor
  · intro t ht
    by_cases hlen : (st.buffer.length + 1 : Int) > st.bufferSize
    · by_cases htime : now - t ≥ st.bufferTimeout
      · simp [emit, ht, hlen, htime]
      · simp [emit, ht, hlen, htime]
    · simp [emit, hlen]
  · intro hle
    have hlen : ¬((st.buffer.length + 1 : Int) > st.bufferSize) := by omega
    simp [emit, hlen]

/-- C5 witness: on a handler with threshold `-1` whose `_last_emitted` is
`0`, emitting at time `1` triggers a flush; on a handler with threshold `5`
and an empty buffer, emitting does not. -/
theorem c5_emit_flush_predicate_witness :
    emit (⟨[], -1, 0, none, some 0⟩ : BatchableState Nat Nat) id 7 1
      = .ok (⟨[7], -1, 0, some 7, some 0⟩, true)
    ∧ emit (⟨[], 5, 0, none, none⟩ : BatchableState Nat Nat) id 7 1
      = .ok (⟨[7], 5, 0, some 7, none⟩, false) := by
  constructor
  · have h := (c5_emit_flush_predicate
      (⟨[], -1, 0, none, some 0⟩ : BatchableState Nat Nat) id 7 1).1 0 rfl
    simpa using h
  · have h := (c5_emit_flush_predicate
      (⟨[], 5, 0, none, none⟩ : BatchableState Nat Nat) id 7 1).2 (by decide)
    simpa using h

/-- C6: A dequeued Envelope carrying both a config and a record applies the
config (attempts `dictConfig`, plus the fallback log if that fails) before
the record is resolved to its named logger and handled, within the same
worker invocation; an Envelope with only one part performs only that part.
The plain `log_utils.handle_shared_log_message` variant dispatches in the
same order. -/
theorem c6_config_before_record (configFails : Bool) (c : LoggerConfigMsg)
    (r : LogRecordMsg) :
    (∃ pre,
      (handleSharedLogMessage configFails false ⟨some r, some c⟩).1
          = pre ++ [.handleRecord r.name]
        ∧ HandlerEvent.dictConfig c.name ∈ pre
        ∧ ∀ e ∈ pre, ∀ n, e ≠ HandlerEvent.handleRecord n)
    ∧ (handleSharedLogMessage configFails false ⟨some r, none⟩).1
        = [.handleRecord r.name]
    ∧ (handleSharedLogMessage configFails false ⟨none, some c⟩).1
        = (if configFails then [.dictConfig c.name, .fallbackLog c.name]
           else [.dictConfig c.name])
    ∧ (logUtilsHandleSharedLogMessage false ⟨some r, some c⟩).1
        = [.dictConfig c.name, .handleRecord r.name] := by
  refine ⟨⟨if configFails then [.dictConfig c.name, .fallbackLog c.name]
            else [.dictConfig c.name], ?_, ?_, ?_⟩, ?_, ?_, ?_⟩
  · cases configFails <;> simp [handleSharedLogMessage]
  · cases configFails <;> simp
  · intro e he n
    cases configFails
    · simp at he
      simp [he]
    · simp at he
      rcases he with h | h <;> simp [h]
  · cases configFails <;> simp [handleSharedLogMessage]
  · cases configFails <;> simp [handleSharedLogMessage]
  · simp [logUtilsHandleSharedLogMessage]

/-- C6 witness: concrete envelopes — a record-only envelope only handles
the record, and an envelope carrying both parts applies the config first
and handles the record last. -/
theorem c6_config_before_record_witness :
    (handleSharedLogMessage true false ⟨some ⟨"app"⟩, none⟩).1
      = [.handleRecord "app"]
    ∧ (logUtilsHandleSharedLogMessage false ⟨some ⟨"app"⟩, some ⟨"cfg"⟩⟩).1
      = [.dictConfig "cfg", .handleRecord "app"] := by
  have h := c6_config_before_record true ⟨"cfg"⟩ ⟨"app"⟩
  exact ⟨h.2.1, h.2.2.2⟩

/-- C7 counterexample: the claim asserts a config-application exception is
re-raised (terminating the worker thread) when the daemon was configured
with `raise_on_exc = true`.  On the code it is not: with
`raise_on_exc = true`, a failing config directive is caught, logged via the
fallback logger, and the worker invocation returns normally (no escaping
exception), because `_handle_shared_log_message` swallows the exception
unconditionally and `raise_on_exc` is never consulted on this path. -/
theorem c7_counterexample :
    workerOutcome true true false ⟨none, some ⟨"app"⟩⟩
      = ([.dictConfig "app", .fallbackLog "app"], none) := by
  rfl

/-- C7 amended: every exception raised while applying a config directive is
caught and logged through the fallback logger, never silently dropped, does
not abort the worker or the dispatch loop, and the directive is attempted
once (dropped, not retried); the exception is never re-raised — the
worker's outcome is independent of `raise_on_exc`, which governs only the
queue-get path of the listen loop. -/
theorem c7_amended (raiseOnExc configFails recordFails : Bool)
    (msg : SharedLogMessage) :
    (workerOutcome raiseOnExc configFails false msg).2 = none
    ∧ (∀ c, msg.config = some c → configFails = true →
        HandlerEvent.fallbackLog c.name
          ∈ (workerOutcome raiseOnExc configFails false msg).1)
    ∧ ((workerOutcome raiseOnExc configFails recordFails msg).1.countP
        (fun e => match e with | .dictConfig _ => true | _ => false)) ≤ 1
    ∧ workerOutcome raiseOnExc configFails recordFails msg
        = workerOutcome false configFails recordFails msg := by
  refine ⟨?_, ?_, ?_, rfl⟩
  · rcases msg with ⟨rec, cfg⟩
    cases rec <;> cases cfg <;> cases configFails <;>
      simp [workerOutcome, handleSharedLogMessage]
  · intro c hc hf
    rcases msg with ⟨rec, cfg⟩
    cases hc
    cases rec <;> simp [workerOutcome, handleSharedLogMessage, hf]
  · rcases msg with ⟨rec, cfg⟩
    cases rec <;> cases cfg <;> cases configFails <;> cases recordFails <;>
      simp [workerOutcome, handleSharedLogMessage, List.countP_append,
        List.countP_cons]

/-- C7 witness: a failing config directive for logger `"db"` under
`raise_on_exc = true` is logged via the fallback logger and the worker
returns without an escaping exception. -/
theorem c7_amended_witness :
    (workerOutcome true true false ⟨none, some ⟨"db"⟩⟩).2 = none
    ∧ HandlerEvent.fallbackLog "db"
        ∈ (workerOutcome true true false ⟨none, some ⟨"db"⟩⟩).1 := by
  have h := c7_amended true true false ⟨none, some ⟨"db"⟩⟩
  exact ⟨h.1, h.2.1 ⟨"db"⟩ rfl rfl⟩

/-- When every send succeeds, the flush loop delivers the buffer back to
front and leaves the rest of the outcome untouched. -/
theorem smtpFlushLoop_all_ok {α : Type} (raiseExc : Bool) (buf : List α)
    (out : SmtpFlushResult α) :
    smtpFlushLoop (fun _ => true) raiseExc buf out
      = { out with sent := out.sent ++ buf.reverse } := by
  induction buf using List.reverseRecOn generalizing out with
  | nil => simp [smtpFlushLoop]
  | append_singleton l a ih =>
    rw [smtpFlushLoop]
    split
    next hb => simp at hb
    next r hb =>
      have hr : a = r := by simpa [List.getLast?_concat] using hb
      subst hr
      simp [List.dropLast_concat, ih]

/-- With `logging.raiseExceptions` true, the flush loop never swallows a
failed send: a failure re-raises at once, so nothing is added to
`lostSilently`. -/
theorem smtpFlushLoop_raise_no_silent_loss {α : Type} (sendOk : α → Bool)
    (buf : List α) (out : SmtpFlushResult α) :
    (smtpFlushLoop sendOk true buf out).lostSilently = out.lostSilently := by
  induction buf using List.reverseRecOn generalizing out with
  | nil => simp [smtpFlushLoop]
  | append_singleton l a ih =>
    rw [smtpFlushLoop]
    split
    next hb => simp at hb
    next r hb =>
      have hr : a = r := by simpa [List.getLast?_concat] using hb
      subst hr
      by_cases h : sendOk a <;> simp [List.dropLast_concat, h, ih]

/-- C3 counterexample: the claim says that under any value of
`logging.raiseExceptions`, no execution of flush removes a record from the
buffer and then loses it with its delivery exception swallowed silently.
With `logging.raiseExceptions = false`, `BufferingSMTPHandler.flush` on a
one-record buffer whose send fails pops the record, swallows the exception
in its bare `except` clause, calls no error handler, raises nothing, and
finishes with an empty buffer: the record is gone and no error was
surfaced. -/
theorem c3_counterexample :
    smtpFlush (fun _ : Nat => false) false [0]
      = { sent := [], lostSilently := [0], raised := none, finalBuffer := [] } := by
  rw [smtpFlush]
  simp only [List.isEmpty_cons, Bool.false_eq_true, if_false]
  rw [smtpFlushLoop]
  simp [smtpFlushLoop]

/-- C3 amended: `BatchableLogHandler.flush` removes records from the buffer
only when delivery succeeded; on failure it removes nothing, keeps the
buffer intact, and invokes `handleError` (so nothing is removed and lost).
`BufferingSMTPHandler.flush` never loses a removed record silently when
`logging.raiseExceptions` is true (a failed send's exception propagates);
the silent loss of the counterexample arises only with
`logging.raiseExceptions = false`. -/
theorem c3_amended {α σ : Type} (st : BatchableState α σ) (deliverOk : Bool)
    (sendOk : σ → Bool) (buffer : List σ) :
    ((flushBatchable st deliverOk).removed = [] ∨ deliverOk = true)
    ∧ (flushBatchable st false).removed = []
    ∧ (flushBatchable st false).finalBuffer = st.buffer
    ∧ (flushBatchable st false).handleErrorCalled = !st.buffer.isEmpty
    ∧ (smtpFlush sendOk true buffer).lostSilently = [] := by
  refine ⟨?_, ?_, ?_, ?_, ?_⟩
  · cases deliverOk
    · left
      by_cases h : st.buffer.isEmpty <;> simp [flushBatchable, h]
    · right
      rfl
  · by_cases h : st.buffer.isEmpty <;> simp [flushBatchable, h]
  · by_cases h : st.buffer.isEmpty
    · simp [flushBatchable, h, List.isEmpty_iff.mp h]
    · simp [flushBatchable, h]
  · by_cases h : st.buffer.isEmpty <;> simp [flushBatchable, h]
  · by_cases h : buffer.isEmpty
    · simp [smtpFlush, h]
    · simp [smtpFlush, h, smtpFlushLoop_raise_no_silent_loss]

/-- C10: the `while self.buffer:` loop of `BufferingSMTPHandler.flush`
removes records with `self.buffer.pop()`, i.e. from the tail, so when all
sends succeed the messages go out in the reverse of the order in which the
records were emitted into the buffer; on the two-record buffer `[0, 1]`
the send order is `[1, 0]`, LIFO rather than FIFO. -/
theorem c10_flush_sends_lifo {α : Type} (raiseExc : Bool) (buffer : List α) :
    (smtpFlush (fun _ => true) raiseExc buffer).sent = buffer.reverse
    ∧ (smtpFlush (fun _ => true) raiseExc buffer).finalBuffer = []
    ∧ (smtpFlush (fun _ : Nat => true) true [0, 1]).sent = [1, 0]
    ∧ ([1, 0] : List Nat) ≠ [0, 1] := by
  have key : ∀ (b : List α), smtpFlush (fun _ => true) raiseExc b
      = { sent := b.reverse, lostSilently := [], raised := none,
          finalBuffer := if b.isEmpty then b else [] } := by
    intro b
    by_cases h : b.isEmpty
    · simp [smtpFlush, h, List.isEmpty_iff.mp h]
    · simp [smtpFlush, h, smtpFlushLoop_all_ok]
  have key2 : smtpFlush (fun _ : Nat => true) true [0, 1]
      = { sent := [1, 0], lostSilently := [], raised := none,
          finalBuffer := [] } := by
    have := smtpFlushLoop_all_ok (α := Nat) true [0, 1]
      { sent := [], lostSilently := [], raised := none, finalBuffer := [] }
    simpa [smtpFlush] using this
  refine ⟨?_, ?_, ?_, by simp⟩
  · rw [key]
  · rw [key]
    by_cases h : buffer.isEmpty
    · simp [h, List.isEmpty_iff.mp h]
    · simp [h]
  · rw [key2]

/-- C4 counterexample: the claim says that when the daemon is not alive,
`stop_listener` fails, performing nothing beyond raising a typed exception
or emitting a warning.  With `raise_on_exc = false` the code only warns and
then *continues*: on a dead daemon with `timeout = 0` it still sets the
Stop Event, terminates, sleeps the grace period, and closes — not a no-op. -/
theorem c4_counterexample :
    stopListener false false false 0
      = .ok [.warn, .setStopEvent, .terminate, .sleep (1/10), .close]
    ∧ LifecycleEvent.terminate
        ∈ [LifecycleEvent.warn, .setStopEvent, .terminate, .sleep (1/10),
           .close] := by
  exact ⟨rfl, by decide⟩

/-- C4 amended: on a live daemon, `stop_listener(timeout)` sets the Stop
Event and then: `timeout == 0` terminates immediately, sleeps the fixed
0.1-second grace period, escalates to a warning plus forced kill if the
process is still alive, and closes; `timeout > 0` first sleeps `timeout`
seconds and then performs the same sequence; `timeout < 0` only sets the
Stop Event.  When the daemon is not alive: with `raise_on_exc = true` the
call raises `ValueError` having done nothing; with `raise_on_exc = false`
it emits a warning and then proceeds exactly as in the live case. -/
theorem c4_amended (aliveAfterTerm raiseOnExc : Bool) (timeout : Rat) :
    stopListener true aliveAfterTerm raiseOnExc 0
      = .ok ([.setStopEvent, .terminate, .sleep (1/10)]
          ++ (if aliveAfterTerm then [.warn, .kill] else []) ++ [.close])
    ∧ (timeout > 0 →
        stopListener true aliveAfterTerm raiseOnExc timeout
          = .ok ([.setStopEvent, .sleep timeout, .terminate, .sleep (1/10)]
              ++ (if aliveAfterTerm then [.warn, .kill] else []) ++ [.close]))
    ∧ (timeout < 0 →
        stopListener true aliveAfterTerm raiseOnExc timeout
          = .ok [.setStopEvent])
    ∧ stopListener false aliveAfterTerm true timeout
        = .error (.valueError "Daemon is not running")
    ∧ stopListener false aliveAfterTerm false timeout
        = (stopListener true aliveAfterTerm false timeout).map
            (fun tr => .warn :: tr) := by
  refine ⟨?_, ?_, ?_, rfl, ?_⟩
  · simp [stopListener, stopDaemon]
  · intro ht
    have h0 : ¬(timeout = 0) := by intro h; rw [h] at ht; exact lt_irrefl 0 ht
    simp [stopListener, stopDaemon, h0, ht]
  · intro ht
    have h0 : ¬(timeout = 0) := by intro h; rw [h] at ht; exact lt_irrefl 0 ht
    have h1 : ¬(timeout > 0) := by exact not_lt.mpr (le_of_lt ht)
    simp [stopListener, h0, h1]
  · by_cases h0 : timeout = 0
    · simp [stopListener, h0, Except.map]
    · by_cases h1 : timeout > 0 <;> simp [stopListener, h0, h1, Except.map]

/-- C4 witness: concrete instances of the timeout cases — a positive
timeout of 1 second sleeps then terminates, kills and closes; a negative
timeout only sets the Stop Event. -/
theorem c4_amended_witness :
    stopListener true true true 1
      = .ok [.setStopEvent, .sleep 1, .terminate, .sleep (1/10), .warn,
             .kill, .close]
    ∧ stopListener true true true (-1) = .ok [.setStopEvent] := by
  constructor
  · have h := (c4_amended true true 1).2.1 (by norm_num)
    simpa using h
  · exact (c4_amended true true (-1)).2.2.1 (by norm_num)

/-- C1 counterexample: the claim says that in every execution of
`QueueListener.listen`, a new dequeue iteration is begun only in states
where the stop event is not set.  In the step model of the listener process
there is an execution refuting this: from the initial state, setting the
stop event yields a state whose flag is set, in which the `beginGet` step —
a new dequeue iteration — is still enabled, because the loop guard is the
constant `while True:` and never consults the event. -/
theorem c1_counterexample :
    lstep listenInit .setStop
      = some { stopSet := true, atLoopHead := true, processAlive := true,
               workers := 0 }
    ∧ ({ stopSet := true, atLoopHead := true, processAlive := true,
         workers := 0 } : ListenState).stopSet = true
    ∧ (lstep { stopSet := true, atLoopHead := true, processAlive := true,
               workers := 0 } .beginGet).isSome = true := by
  exact ⟨rfl, rfl, rfl⟩

/-- C1 amended: whether a new dequeue iteration can begin depends only on
the listener process being alive and the `listen` thread being at its loop
head — the stop event does not occur in the enabling condition, since the
loop guard is the constant `while True:`.  Setting the stop event changes
only the flag: it cancels neither in-flight worker threads nor the loop.
New iterations cease only once the process is dead, and the coordination
thread's process-exit step is enabled exactly when the stop event is set
and the process is still alive — so termination of the dequeue loop is
driven by the Stop Event only through the coordination thread's exit. -/
theorem c1_amended (s : ListenState) :
    ((lstep s .beginGet).isSome = true
      ↔ (s.processAlive = true ∧ s.atLoopHead = true))
    ∧ lstep s .setStop = some { s with stopSet := true }
    ∧ ({ s with stopSet := true } : ListenState).workers = s.workers
    ∧ ({ s with stopSet := true } : ListenState).atLoopHead = s.atLoopHead
    ∧ ({ s with stopSet := true } : ListenState).processAlive = s.processAlive
    ∧ ((lstep s .coordExit).isSome = true
      ↔ (s.stopSet = true ∧ s.processAlive = true)) := by
  refine ⟨?_, rfl, rfl, rfl, rfl, ?_⟩
  · by_cases h1 : s.processAlive <;> by_cases h2 : s.atLoopHead <;>
      simp [lstep, listenGuard, h1, h2]
  · by_cases h1 : s.stopSet <;> by_cases h2 : s.processAlive <;>
      simp [lstep, h1, h2]

end ConfigUtils
